import Mathlib

/-!
Verification of the `mlrun/tutorials` data-ingestion notebooks
(`data-ingestion-and-preparation/file-access.ipynb` and
`data-ingestion-and-preparation/README.ipynb`).

The notebooks are straight-line sequences of code cells.  We embed each code
cell as a list of statements of an abstract-syntax type `Stmt` that mirrors the
exact calls made by the source, with the path expressions the source builds via
`os.path.join` / `os.getenv` kept symbolic in a `PathExpr` type.  External
behavior (the Spark connector, the NoSQL/KV data source, the Frames client,
the distributed file system) is modelled from the spec and from the notebook's
own documentation, in definitions marked "Modelled from the spec".
-/

namespace MlrunTutorials

/-- Split a list of characters on a separator character. -/
def splitBy (sep : Char) : List Char → List Char → List (List Char)
  | [], cur => [cur.reverse]
  | c :: rest, cur =>
    if c = sep then cur.reverse :: splitBy sep rest []
    else splitBy sep rest (c :: cur)

/-- The nonempty `/`-separated segments of a path string. -/
def slashSegs (s : String) : List String :=
  ((splitBy '/' s.data []).filter (fun cs => cs ≠ [])).map (fun cs => String.mk cs)

/-- Python's `os.path.join` for POSIX paths, as used by the notebook: an
absolute second argument replaces the first; otherwise the parts are glued
with a single `/`. -/
def osPathJoin (a b : String) : String :=
  if b.data.head? = some '/' then b
  else if a = "" then b
  else if a.data.getLast? = some '/' then a ++ b
  else a ++ "/" ++ b

/-- A path expression as written in the notebook source: a string literal, a
lookup of an environment variable (`os.getenv`), or `os.path.join` of two
path expressions. -/
inductive PathExpr where
  | lit (s : String)
  | envGet (v : String)
  | joinE (a b : PathExpr)
deriving DecidableEq, Repr

/-- Evaluate a path expression to a string, given the value of the
`V3IO_HOME_URL` environment variable (the only one the notebooks read). -/
def PathExpr.eval (home : String) : PathExpr → String
  | .lit s => s
  | .envGet _ => home
  | .joinE a b => osPathJoin (a.eval home) (b.eval home)

/-- Whether the expression reads the `V3IO_HOME_URL` environment variable,
i.e. whether the address is a URL built from `V3IO_HOME_URL`. -/
def PathExpr.usesHomeUrlEnv : PathExpr → Bool
  | .lit _ => false
  | .envGet v => v = "V3IO_HOME_URL"
  | .joinE a b => a.usesHomeUrlEnv || b.usesHomeUrlEnv

/-- Whether the expression is an absolute local path under the `/User`
file-system mount. -/
def PathExpr.isMountPath : PathExpr → Bool
  | .lit s =>
    (s.data.head? = some '/') &&
      (match slashSegs s with
       | "User" :: _ => true
       | _ => false)
  | .envGet _ => false
  | .joinE a _ => a.isMountPath

/-- Modelled from the spec and the notebook's own comments
(`$V3IO_HOME_URL <=> v3io://users/<running user>` and
`/User <=> /v3io/users/<running user>`): the canonical location of a path, as
a segment list rooted at the data containers.  A `/User/...` mount path and a
URL built from `V3IO_HOME_URL` denote the running user's home directory in
the `users` container; the running user's name is kept symbolic as the
segment `$V3IO_USERNAME`. -/
def PathExpr.canonSegs : PathExpr → List String
  | .lit s =>
    if s.data.head? = some '/' then
      match slashSegs s with
      | "User" :: rest => "users" :: "$V3IO_USERNAME" :: rest
      | segs => segs
    else slashSegs s
  | .envGet _ => ["users", "$V3IO_USERNAME"]
  | .joinE a b => a.canonSegs ++ b.canonSegs

/-- A statement of a notebook code cell, mirroring the exact calls the
source makes. -/
inductive Stmt where
  | importMods (mods : List String)
  | framesClientInit (addr container : String)
  | assignPath (v : String) (e : PathExpr)
  | shellMkdirP (dir : PathExpr)
  | shellCurl (url : String) (target : PathExpr)
  | shellLs (dir : PathExpr)
  | shellRm (dir : PathExpr)
  | comment (text : String)
  | pandasReadCsv (dfVar : String) (src : PathExpr)
  | pandasSetIndex (dfVar col : String)
  | pandasHead (dfVar : String)
  | framesWrite (backend : String) (table : PathExpr) (dfVar : String)
  | sparkInit (appName : String)
  | sparkReadCsv (dfVar headerVal : String) (src : PathExpr)
  | sparkShow (dfVar : String)
  | sparkWriteKv (dfVar fmt modeStr keyCol schemaFlagVal : String) (target : PathExpr)
  | sparkReadKv (dfVar fmt : String) (src : PathExpr) (whereCond : String)
  | sparkWriteCsv (dfVar : String) (coalesceTo : Nat) (modeStr : String) (target : PathExpr)
  | sparkStop
deriving DecidableEq, Repr

/-- `sample_dir = os.path.join('examples', 'stocks')`. -/
def sampleDirE : PathExpr := .joinE (.lit "examples") (.lit "stocks")

/-- `sample_dir_path = os.path.join('/User', sample_dir)`. -/
def sampleDirPathE : PathExpr := .joinE (.lit "/User") sampleDirE

/-- `sample_dir_url_path = os.path.join(os.getenv('V3IO_HOME_URL'), sample_dir)`. -/
def sampleDirUrlPathE : PathExpr := .joinE (.envGet "V3IO_HOME_URL") sampleDirE

/-- `nosql_table = os.path.join(sample_dir, 'stocks_example_tab')`. -/
def nosqlTableE : PathExpr := .joinE sampleDirE (.lit "stocks_example_tab")

/-- The NoSQL Spark data-source format string used by the notebook. -/
def kvFormat : String := "io.iguaz.v3io.spark.sql.kv"

/-- The statement `df.write.format("io.iguaz.v3io.spark.sql.kv").mode("append")
.option("key", "ISIN").option("allow-overwrite-schema", "true")
.save(os.path.join(sample_dir_url_path, 'stocks_tab_spark'))`. -/
def csvToNoSqlWriteStmt : Stmt :=
  .sparkWriteKv "df" kvFormat "append" "ISIN" "true"
    (.joinE sampleDirUrlPathE (.lit "stocks_tab_spark"))

/-- The statement `myDF2 = spark.read.format("io.iguaz.v3io.spark.sql.kv")
.load(os.path.join(sample_dir_url_path, 'stocks_tab_spark'))
.where("TradedVolume>20000")`. -/
def nosqlReadStmt : Stmt :=
  .sparkReadKv "myDF2" kvFormat
    (.joinE sampleDirUrlPathE (.lit "stocks_tab_spark")) "TradedVolume>20000"

/-- The statement `myDF2.coalesce(1).write.mode('overwrite')
.csv(os.path.join(sample_dir_url_path, 'stocks_high_volume.csv'))`. -/
def nosqlToCsvWriteStmt : Stmt :=
  .sparkWriteCsv "myDF2" 1 "overwrite"
    (.joinE sampleDirUrlPathE (.lit "stocks_high_volume.csv"))

/-- The statement
`df = spark.read.option("header", "true").csv(os.path.join(sample_dir_url_path, 'stocks_example.csv'))`. -/
def sparkReadCsvStmt : Stmt :=
  .sparkReadCsv "df" "true" (.joinE sampleDirUrlPathE (.lit "stocks_example.csv"))

/-- The statement `!ls -l /User/examples/stocks/`. -/
def lsStocksStmt : Stmt := .shellLs (.lit "/User/examples/stocks/")

/-- The code cells of `file-access.ipynb`, in notebook order. -/
def fileAccessCells : List (List Stmt) :=
  [ [ .importMods ["pandas", "v3io_frames", "os"] ],
    [ .framesClientInit "framesd:8081" "users" ],
    [ .assignPath "sample_dir" sampleDirE,
      .assignPath "sample_dir_path" sampleDirPathE,
      .assignPath "sample_dir_url_path" sampleDirUrlPathE ],
    [ .shellMkdirP (.lit "/User/examples/stocks") ],
    [ .shellCurl "https://s3.wasabisys.com/iguazio/data/stocks/2018-03-26_BINS_XETR08.csv"
        (.lit "/User/examples/stocks/stocks_example.csv") ],
    [ .pandasReadCsv "df" (.joinE sampleDirPathE (.lit "stocks_example.csv")),
      .pandasSetIndex "df" "ISIN",
      .pandasHead "df" ],
    [ .assignPath "nosql_table" nosqlTableE,
      .framesWrite "nosql" nosqlTableE "df" ],
    [ .sparkInit "Iguazio Data Science Platform file-access tutorial",
      sparkReadCsvStmt,
      .sparkShow "df" ],
    [ csvToNoSqlWriteStmt ],
    [ nosqlReadStmt ],
    [ nosqlToCsvWriteStmt ],
    [ lsStocksStmt ],
    [ .comment "!rm -rf /User/examples/stocks/" ],
    [ .sparkStop ] ]

/-- The single code cell of `README.ipynb`: a `%%sh` cell that sets
`CSV_PATH` and downloads the sample CSV with `curl`. -/
def readmeCells : List (List Stmt) :=
  [ [ .assignPath "CSV_PATH" (.lit "/User/examples/stocks.csv"),
      .shellCurl "https://s3.wasabisys.com/iguazio/data/stocks/2018-03-26_BINS_XETR08.csv"
        (.lit "/User/examples/stocks.csv") ] ]

/-- All statements of both notebooks. -/
def allNotebookStmts : List Stmt := fileAccessCells.flatten ++ readmeCells.flatten

/-- Metadata of a NoSQL/KV table created during a run: its canonical path and
the column designated as the table's primary-key attribute. -/
structure KVTableMeta where
  path : List String
  keyCol : String
deriving DecidableEq, Repr

/-- The notebook-visible state: the file system (directories and files, as
canonical segment lists), the NoSQL tables created so far, and the status of
the Frames client, the pandas DataFrame `df`, the Spark session, and the
Spark DataFrames `df` and `myDF2`. -/
structure NbState where
  dirs : List (List String)
  files : List (List String)
  tables : List KVTableMeta
  framesContainer : Option String
  pdLoaded : Bool
  pdIndex : Option String
  sparkActive : Bool
  sparkDfLoaded : Bool
  df2Loaded : Bool
deriving DecidableEq, Repr

/-- The empty initial state: nothing created, no client or session active. -/
def nbInit : NbState :=
  { dirs := [], files := [], tables := [], framesContainer := none,
    pdLoaded := false, pdIndex := none, sparkActive := false,
    sparkDfLoaded := false, df2Loaded := false }

/-- The directory and all of its ancestors, as created by `mkdir -p`. -/
def ancestorDirs (segs : List String) : List (List String) :=
  (List.range segs.length).map (fun i => segs.take (i + 1))

/-- Modelled from the spec: one execution step of a notebook statement over
the notebook-visible state.  `none` is failure.  `mkdir -p` creates the
directory and its ancestors and always succeeds; `curl` requires the target's
directory; reads require their source to exist; the Frames `nosql` write
stores a table keyed by the pandas DataFrame's index column at a path
relative to the client's container root; the Spark KV write stores a table
keyed by the `key` option; NoSQL tables appear as directories in the file
system (per the notebook's note); the coalesced CSV write creates the target
directory holding a single part file; commented-out code does nothing. -/
def step (st : NbState) : Stmt → Option NbState
  | .importMods _ => some st
  | .framesClientInit _ container => some { st with framesContainer := some container }
  | .assignPath _ _ => some st
  | .shellMkdirP d => some { st with dirs := ancestorDirs d.canonSegs ++ st.dirs }
  | .shellCurl _ tgt =>
    if tgt.canonSegs.dropLast ∈ st.dirs then
      some { st with files := tgt.canonSegs :: st.files }
    else none
  | .shellLs d => if d.canonSegs ∈ st.dirs then some st else none
  | .shellRm d =>
    some { st with
      dirs := st.dirs.filter (fun p => !(d.canonSegs.isPrefixOf p)),
      files := st.files.filter (fun p => !(d.canonSegs.isPrefixOf p)),
      tables := st.tables.filter (fun t => !(d.canonSegs.isPrefixOf t.path)) }
  | .comment _ => some st
  | .pandasReadCsv _ src =>
    if src.canonSegs ∈ st.files then
      some { st with pdLoaded := true, pdIndex := none }
    else none
  | .pandasSetIndex _ col =>
    if st.pdLoaded then some { st with pdIndex := some col } else none
  | .pandasHead _ => if st.pdLoaded then some st else none
  | .framesWrite _ tbl _ =>
    match st.framesContainer with
    | some container =>
      if st.pdLoaded then
        let p := container :: tbl.canonSegs
        some { st with
          tables := ⟨p, st.pdIndex.getD "default_range_index"⟩ :: st.tables,
          dirs := ancestorDirs p ++ st.dirs }
      else none
    | none => none
  | .sparkInit _ => some { st with sparkActive := true }
  | .sparkReadCsv _ _ src =>
    if st.sparkActive && decide (src.canonSegs ∈ st.files) then
      some { st with sparkDfLoaded := true }
    else none
  | .sparkShow _ => if st.sparkDfLoaded then some st else none
  | .sparkWriteKv _ _ _ keyCol _ tgt =>
    if st.sparkActive && st.sparkDfLoaded then
      some { st with
        tables := ⟨tgt.canonSegs, keyCol⟩ :: st.tables,
        dirs := ancestorDirs tgt.canonSegs ++ st.dirs }
    else none
  | .sparkReadKv _ _ src _ =>
    if st.sparkActive && st.tables.any (fun t => t.path = src.canonSegs) then
      some { st with df2Loaded := true }
    else none
  | .sparkWriteCsv _ _ _ tgt =>
    if st.sparkActive && st.df2Loaded then
      some { st with
        dirs := ancestorDirs tgt.canonSegs ++ st.dirs,
        files := (tgt.canonSegs ++ ["part-00000"]) :: st.files }
    else none
  | .sparkStop => some { st with sparkActive := false }

/-- Run a list of statements in order, stopping at the first failure. -/
def runStmts (st : NbState) : List Stmt → Option NbState
  | [] => some st
  | s :: rest =>
    match step st s with
    | some st2 => runStmts st2 rest
    | none => none

/-- Run a list of code cells in order. -/
def runCells (st : NbState) (cells : List (List Stmt)) : Option NbState :=
  runStmts st cells.flatten

/-- The result of running every cell of `file-access.ipynb` in order from the
empty initial state. -/
def fileAccessFinal : Option NbState := runCells nbInit fileAccessCells

/-- The final state of the `file-access.ipynb` run (the run succeeds, as
proved below). -/
def fileAccessPost : NbState := fileAccessFinal.getD nbInit

/-- An argument value supplied by the notebook to the Spark connector / NoSQL
data source, classified by its kind. -/
inductive ConnArg where
  | fmtString (v : String)
  | keyColumn (v : String)
  | pathArg (v : String)
  | overwriteFlag (v : String)
  | writeMode (v : String)
  | headerFlag (v : String)
  | rowFilter (v : String)
  | partitionCount (n : Nat)
deriving DecidableEq, Repr

/-- The kinds of argument the claim allows: a format string, a key column,
a path, and an overwrite flag. -/
def ConnArg.isClaimedConfigKind : ConnArg → Bool
  | .fmtString _ => true
  | .keyColumn _ => true
  | .pathArg _ => true
  | .overwriteFlag _ => true
  | _ => false

/-- The arguments a Spark read/write statement passes to the Spark connector
or NoSQL data source, read off the statement.  Path arguments are rendered
with the environment variable shown symbolically as `$V3IO_HOME_URL`. -/
def Stmt.connectorArgs : Stmt → List ConnArg
  | .sparkReadCsv _ h src => [.headerFlag h, .pathArg (src.eval "$V3IO_HOME_URL")]
  | .sparkWriteKv _ f m k ow tgt =>
    [.fmtString f, .writeMode m, .keyColumn k, .overwriteFlag ow,
     .pathArg (tgt.eval "$V3IO_HOME_URL")]
  | .sparkReadKv _ f src w =>
    [.fmtString f, .pathArg (src.eval "$V3IO_HOME_URL"), .rowFilter w]
  | .sparkWriteCsv _ n m tgt =>
    [.partitionCount n, .writeMode m, .pathArg (tgt.eval "$V3IO_HOME_URL")]
  | _ => []

/-- The statements of the two conversion sections: CSV data to a NoSQL table
(Spark CSV read, Spark KV write) and NoSQL data back to a CSV file (Spark KV
read with a row filter, coalesced Spark CSV write). -/
def conversionStmts : List Stmt :=
  [sparkReadCsvStmt, csvToNoSqlWriteStmt, nosqlReadStmt, nosqlToCsvWriteStmt]

/-- Modelled from the spec: Spark's `coalesce` reduces the number of
partitions of a DataFrame to at most the requested count (it never increases
it). -/
def coalescePartitions (n p : Nat) : Nat := min n p

/-- Modelled from the spec: a Spark DataFrame CSV write emits one output
part-file per partition of the written DataFrame. -/
def csvOutputFileCount (partitions : Nat) : Nat := partitions

/-- The argument passed to `coalesce` by a Spark CSV write statement. -/
def Stmt.coalesceArgOf : Stmt → Option Nat
  | .sparkWriteCsv _ n _ _ => some n
  | _ => none

/-- The `coalesce` argument of the notebook's NoSQL-to-CSV write. -/
def theCoalesceArg : Nat := (Stmt.coalesceArgOf nosqlToCsvWriteStmt).getD 0

/-- Whether a statement goes through the platform data store's client API for
NoSQL tables: the Frames client's `nosql` backend or the
`io.iguaz.v3io.spark.sql.kv` Spark data source. -/
def isNoSqlApiAccess : Stmt → Bool
  | .framesWrite backend _ _ => backend = "nosql"
  | .sparkWriteKv _ fmt _ _ _ _ => fmt = kvFormat
  | .sparkReadKv _ fmt _ _ => fmt = kvFormat
  | _ => false

/-- Whether a statement reads or writes the data of a NoSQL table. -/
def readsOrWritesTableData : Stmt → Bool
  | .framesWrite _ _ _ => true
  | .sparkWriteKv _ _ _ _ _ _ => true
  | .sparkReadKv _ _ _ _ => true
  | _ => false

/-- Whether a statement, executed in the given state, reads, writes or
inspects a NoSQL table: a table-data read or write does, and a directory
listing does when some existing table is a child of the listed directory
(NoSQL tables appear as directories in the file system, so the listing
displays them). -/
def stmtInspectsTable (st : NbState) : Stmt → Bool
  | .shellLs d => st.tables.any (fun t => t.path.dropLast = d.canonSegs)
  | s => readsOrWritesTableData s

/-- The statements of a run that touch a NoSQL table by means other than the
client API (each judged in the state in which it executes). -/
def foreignAccessStmts : NbState → List Stmt → List Stmt
  | _, [] => []
  | st, s :: rest =>
    let tail :=
      match step st s with
      | some st2 => foreignAccessStmts st2 rest
      | none => []
    if stmtInspectsTable st s && !(isNoSqlApiAccess s) then s :: tail else tail

/-- Whether a statement is a call into one of the SDKs the claim lists
(pandas, Spark, the Frames client, Presto, Dask, cuDF — only the first three
occur in these notebooks). -/
def stmtIsListedSdkCall : Stmt → Bool
  | .framesClientInit _ _ => true
  | .pandasReadCsv _ _ => true
  | .pandasSetIndex _ _ => true
  | .pandasHead _ => true
  | .framesWrite _ _ _ => true
  | .sparkInit _ => true
  | .sparkReadCsv _ _ _ => true
  | .sparkShow _ => true
  | .sparkWriteKv _ _ _ _ _ _ => true
  | .sparkReadKv _ _ _ _ => true
  | .sparkWriteCsv _ _ _ _ => true
  | .sparkStop => true
  | _ => false

/-- Whether a statement is one of the shell commands the claim lists:
`curl`, `mkdir`, `ls`, `rm`. -/
def stmtIsListedShell : Stmt → Bool
  | .shellMkdirP _ => true
  | .shellCurl _ _ => true
  | .shellLs _ => true
  | .shellRm _ => true
  | _ => false

/-- Whether a cell consists only of listed SDK calls and listed shell
commands, as the claim states. -/
def cellMatchesClaimC4 (c : List Stmt) : Bool :=
  c.all (fun s => stmtIsListedSdkCall s || stmtIsListedShell s)

/-- Whether a statement is setup glue: an import, a local path-variable
assignment built with `os.path.join` / `os.getenv`, or a commented-out
command. -/
def stmtIsSetupOrComment : Stmt → Bool
  | .importMods _ => true
  | .assignPath _ _ => true
  | .comment _ => true
  | _ => false

/-- The data stores named by the spec. -/
inductive Store where
  | objectStore
  | dfs
  | noSqlTable
  | csvFile
  | parquetHive
deriving DecidableEq, Repr

/-- The stores a statement reads or writes: `curl` reads the external object
store and writes a CSV file into the distributed file system; pandas and
Spark CSV reads/writes touch CSV files in the file system; Frames and
Spark KV reads/writes touch NoSQL tables (which live in the file system);
`mkdir`/`ls`/`rm` touch the file system. -/
def Stmt.storesTouched : Stmt → List Store
  | .shellCurl _ _ => [.objectStore, .dfs, .csvFile]
  | .shellMkdirP _ => [.dfs]
  | .shellLs _ => [.dfs]
  | .shellRm _ => [.dfs]
  | .pandasReadCsv _ _ => [.dfs, .csvFile]
  | .framesWrite _ _ _ => [.noSqlTable, .dfs]
  | .sparkReadCsv _ _ _ => [.dfs, .csvFile]
  | .sparkWriteKv _ _ _ _ _ _ => [.noSqlTable, .dfs]
  | .sparkReadKv _ _ _ _ => [.noSqlTable, .dfs]
  | .sparkWriteCsv _ _ _ _ => [.dfs, .csvFile]
  | _ => []

/-- The interface a data access goes through. -/
inductive AccessIface where
  | spark
  | pandas
  | shell
  | frames
deriving DecidableEq, Repr

/-- A data access: the interface used and the address it is given. -/
structure DataAccess where
  iface : AccessIface
  addr : PathExpr
deriving DecidableEq, Repr

/-- The addressed data accesses a statement performs. -/
def Stmt.accesses : Stmt → List DataAccess
  | .shellMkdirP d => [⟨.shell, d⟩]
  | .shellCurl _ t => [⟨.shell, t⟩]
  | .shellLs d => [⟨.shell, d⟩]
  | .shellRm d => [⟨.shell, d⟩]
  | .pandasReadCsv _ s => [⟨.pandas, s⟩]
  | .framesWrite _ t _ => [⟨.frames, t⟩]
  | .sparkReadCsv _ _ s => [⟨.spark, s⟩]
  | .sparkWriteKv _ _ _ _ _ t => [⟨.spark, t⟩]
  | .sparkReadKv _ _ s _ => [⟨.spark, s⟩]
  | .sparkWriteCsv _ _ _ t => [⟨.spark, t⟩]
  | _ => []

/-- All data accesses of both notebooks. -/
def allAccesses : List DataAccess := (allNotebookStmts.map Stmt.accesses).flatten

/-- The claim's dichotomy: Spark accesses use a URL built from
`V3IO_HOME_URL`; every other access uses the `/User` mount. -/
def accessMatchesClaimC6 (a : DataAccess) : Bool :=
  match a.iface with
  | .spark => a.addr.usesHomeUrlEnv
  | _ => a.addr.isMountPath

/-- A row of the stocks table: the `ISIN` key attribute, the `TradedVolume`
attribute, and the remaining columns as attribute/value pairs. -/
structure Row where
  isin : String
  tradedVolume : Int
  cols : List (String × String)
deriving DecidableEq, Repr

/-- The numeric value of a decimal digit character, if it is one. -/
def digitVal? (c : Char) : Option Nat :=
  if '0' ≤ c ∧ c ≤ '9' then some (c.toNat - '0'.toNat) else none

/-- Parse a nonempty list of decimal digits into a number. -/
def natOfDigits : List Char → Nat → Option Nat
  | [], acc => some acc
  | c :: rest, acc =>
    match digitVal? c with
    | some d => natOfDigits rest (acc * 10 + d)
    | none => none

/-- Parse a decimal numeral string. -/
def strToNat? (s : String) : Option Nat :=
  if s.data = [] then none else natOfDigits s.data 0

/-- Modelled from the spec: Spark SQL's evaluation of a `where` condition of
the shape column-greater-than-numeral on a row — true exactly when the named
column is `TradedVolume` and the row's value exceeds the numeral.  (The
condition string is split on the greater-than sign.) -/
def evalCond (cond : String) (r : Row) : Bool :=
  match (splitBy '>' cond.data []).map (fun cs => String.mk cs) with
  | [col, numStr] =>
    match strToNat? numStr with
    | some n => if col = "TradedVolume" then decide ((n : Int) < r.tradedVolume) else false
    | none => false
  | _ => false

/-- The `where` condition of a Spark KV read statement. -/
def Stmt.whereCondOf : Stmt → Option String
  | .sparkReadKv _ _ _ c => some c
  | _ => none

/-- The load path of a Spark KV read statement. -/
def Stmt.kvLoadSrc : Stmt → Option PathExpr
  | .sparkReadKv _ _ p _ => some p
  | _ => none

/-- The save path of a Spark KV write statement. -/
def Stmt.kvSaveTarget : Stmt → Option PathExpr
  | .sparkWriteKv _ _ _ _ _ p => some p
  | _ => none

/-- Modelled from the spec: the rows the NoSQL-to-CSV pipeline writes, given
the rows stored in the table — the NoSQL data source's `load` returns the
stored rows, Spark's `where` keeps exactly the rows satisfying the
notebook's condition, and `coalesce` and the CSV write pass the rows through
whole, with all their columns. -/
def nosqlToCsvOutputRows (tableRows : List Row) : List Row :=
  tableRows.filter (evalCond ((Stmt.whereCondOf nosqlReadStmt).getD ""))

/-- Modelled from the spec: writing a row into a KV table keyed on the
primary-key attribute upserts it — a row whose key equals an existing row's
key replaces that row. -/
def kvUpsert (t : List Row) (r : Row) : List Row :=
  r :: t.filter (fun x => !(x.isin == r.isin))

/-- Modelled from the spec: writing a row list into a fresh KV table keyed on
`ISIN` upserts the rows in order. -/
def kvWriteKeyed (rows : List Row) : List Row := rows.foldl kvUpsert []

/-- The number of rows of a table carrying a given key value. -/
def countKey (t : List Row) (k : String) : Nat :=
  t.countP (fun r => r.isin == k)

/-- Whether a statement is a data-deleting command (`rm`). -/
def Stmt.isDeleteCmd : Stmt → Bool
  | .shellRm _ => true
  | _ => false

/-- The path-variable initialization cell of `file-access.ipynb`. -/
def pathAssignCell : List Stmt :=
  [ .assignPath "sample_dir" sampleDirE,
    .assignPath "sample_dir_path" sampleDirPathE,
    .assignPath "sample_dir_url_path" sampleDirUrlPathE ]

/-- The statements of the initialization cells of `file-access.ipynb`, up to
and including the `mkdir -p` cell. -/
def initStmts : List Stmt := (fileAccessCells.take 4).flatten

/-- The `curl` download statement of `file-access.ipynb`. -/
def theCurlStmt : Stmt :=
  .shellCurl "https://s3.wasabisys.com/iguazio/data/stocks/2018-03-26_BINS_XETR08.csv"
    (.lit "/User/examples/stocks/stocks_example.csv")

/-- The canonical location of the sample directory. -/
def stocksDirSegs : List String := ["users", "$V3IO_USERNAME", "examples", "stocks"]

/-- The Frames write's data access (the access the Frames client performs,
at the address the notebook gives it). -/
def framesAccess : DataAccess := ⟨.frames, nosqlTableE⟩

/-- The state after the twelve cells preceding the cleanup section of
`file-access.ipynb`. -/
def preCleanupState : NbState := (runCells nbInit (fileAccessCells.take 12)).getD nbInit

/-- The state after the initialization cells of `file-access.ipynb` (Frames
client created, sample directory and its ancestors created), starting from
an arbitrary state. -/
def afterInitState (st : NbState) : NbState :=
  { st with
    framesContainer := some "users",
    dirs := ancestorDirs ((PathExpr.lit "/User/examples/stocks").canonSegs) ++ st.dirs }

/-- Upserting a row into a KV table holding at most one row per key yields a
table holding at most one row per key. -/
theorem countKey_kvUpsert_le (t : List Row) (r : Row)
    (h : ∀ k, countKey t k ≤ 1) (k : String) : countKey (kvUpsert t r) k ≤ 1 := by
  unfold countKey kvUpsert
  rw [List.countP_cons, List.countP_filter]
  by_cases hk : r.isin = k
  · subst hk
    have hzero : t.countP (fun x => (x.isin == r.isin) && !(x.isin == r.isin)) = 0 :=
      List.countP_eq_zero.mpr (fun a _ => by simp)
    simp [hzero]
  · have hle : t.countP (fun x => (x.isin == k) && !(x.isin == r.isin))
        ≤ t.countP (fun x => x.isin == k) :=
      List.countP_mono_left (fun a _ ha => (Bool.and_eq_true _ _ |>.mp ha).1)
    have hpr : ((r.isin == k) : Bool) = false := by simp [hk]
    rw [hpr]
    simp only [Bool.false_eq_true, if_false]
    have ht := h k
    unfold countKey at ht
    omega

/-- Folding keyed upserts over any row list preserves the at-most-one-row-per-
key invariant. -/
theorem countKey_foldl_le (rows : List Row) :
    ∀ t, (∀ k, countKey t k ≤ 1) → ∀ k, countKey (rows.foldl kvUpsert t) k ≤ 1 := by
  induction rows with
  | nil => exact fun t h k => h k
  | cons r rest ih => exact fun t h k => ih (kvUpsert t r) (countKey_kvUpsert_le t r h) k

/-- C1 counterexample: the conversion cells do not pass only a format string,
a key column, a path and an overwrite flag to the Spark connector / NoSQL
data source — the NoSQL-to-CSV read also supplies the row-selection predicate
`TradedVolume>20000` of the notebook's own choosing, and the CSV write
supplies the partition-restructuring directive `coalesce(1)`;
the row-filter is not one of the claimed configuration kinds. -/
theorem claimC1_counterexample :
    (conversionStmts.all (fun s => s.connectorArgs.all ConnArg.isClaimedConfigKind)) = false
    ∧ ConnArg.rowFilter "TradedVolume>20000" ∈ nosqlReadStmt.connectorArgs
    ∧ ConnArg.isClaimedConfigKind (.rowFilter "TradedVolume>20000") = false
    ∧ ConnArg.partitionCount 1 ∈ nosqlToCsvWriteStmt.connectorArgs := by decide

/-- C1 (amended): the conversion operations pass exactly these declarative
configuration values to the external Spark connector / NoSQL data source —
a header flag, format strings, a key column, an overwrite flag, write modes,
paths, the row-filter predicate string `TradedVolume>20000`, and the
partition count 1 — and supply no computation of their own beyond choosing
these values. -/
theorem claimC1_amended :
    conversionStmts.map Stmt.connectorArgs =
      [ [.headerFlag "true",
         .pathArg "$V3IO_HOME_URL/examples/stocks/stocks_example.csv"],
        [.fmtString "io.iguaz.v3io.spark.sql.kv", .writeMode "append", .keyColumn "ISIN",
         .overwriteFlag "true", .pathArg "$V3IO_HOME_URL/examples/stocks/stocks_tab_spark"],
        [.fmtString "io.iguaz.v3io.spark.sql.kv",
         .pathArg "$V3IO_HOME_URL/examples/stocks/stocks_tab_spark",
         .rowFilter "TradedVolume>20000"],
        [.partitionCount 1, .writeMode "overwrite",
         .pathArg "$V3IO_HOME_URL/examples/stocks/stocks_high_volume.csv"] ] := by decide

/-- C2: the NoSQL-to-CSV write invokes `coalesce(1)`, and under the modelled
Spark semantics — `coalesce` reduces the partition count to at most its
argument, and the CSV write emits one part-file per partition — the write of
a DataFrame with at least one partition produces a single output file. -/
theorem claimC2 (p : Nat) (h : 1 ≤ p) :
    theCoalesceArg = 1
    ∧ csvOutputFileCount (coalescePartitions theCoalesceArg p) = 1 :=
  ⟨rfl, Nat.min_eq_left h⟩

/-- C2 witness: a DataFrame with 4 partitions, written through the notebook's
`coalesce(1)` CSV write, produces a single output file. -/
theorem claimC2_witness :
    theCoalesceArg = 1
    ∧ csvOutputFileCount (coalescePartitions theCoalesceArg 4) = 1 :=
  claimC2 4 (by decide)

/-- C3 counterexample: running `file-access.ipynb` in order, exactly one
statement touches a NoSQL table by means other than the platform's client
API — the `ls -l /User/examples/stocks/` cell, whose directory listing
displays the `stocks_tab_spark` table (NoSQL tables appear as directories in
the file system), and which is not a Frames or KV data-source call. -/
theorem claimC3_counterexample :
    foreignAccessStmts nbInit fileAccessCells.flatten = [lsStocksStmt]
    ∧ isNoSqlApiAccess lsStocksStmt = false := by decide

/-- C3 (amended): every statement that reads or writes NoSQL table data goes
through the Frames client's `nosql` backend or the `io.iguaz.v3io.spark.sql.kv`
Spark data source; the only other access to a table is the `ls` directory
listing, which inspects the tables as file-system directories. -/
theorem claimC3_amended :
    (allNotebookStmts.all (fun s => !(readsOrWritesTableData s) || isNoSqlApiAccess s)) = true
    ∧ foreignAccessStmts nbInit fileAccessCells.flatten = [lsStocksStmt]
    ∧ foreignAccessStmts nbInit readmeCells.flatten = [] := by decide

/-- C4 counterexample: the path-variable initialization cell of
`file-access.ipynb` consists of `os.path.join` / `os.getenv` assignments —
neither a call into one of the listed SDKs (pandas, Spark, Frames, Presto,
Dask, cuDF) nor a shell command among `curl`, `mkdir`, `ls`, `rm` — so not
every code cell is of the claimed form. -/
theorem claimC4_counterexample :
    pathAssignCell ∈ fileAccessCells
    ∧ cellMatchesClaimC4 pathAssignCell = false
    ∧ ((fileAccessCells ++ readmeCells).all cellMatchesClaimC4) = false := by decide

/-- C4 (amended): every code cell of the notebooks consists of calls into the
listed external SDKs, shell commands among `curl`, `mkdir`, `ls`, `rm`, or
setup glue — imports, local path-variable assignments built with
`os.path.join` / `os.getenv`, and a commented-out command; no cell performs
any other kind of computation. -/
theorem claimC4_amended :
    ((fileAccessCells ++ readmeCells).all
      (fun c => c.all
        (fun s => stmtIsListedSdkCall s || stmtIsListedShell s || stmtIsSetupOrComment s)))
      = true := by decide

/-- C5 counterexample: no operation in the source files reads or writes a
Parquet/Hive table (Parquet and Hive are only mentioned in markdown and in
linked tutorials that are not part of these source files). -/
theorem claimC5_counterexample :
    (allNotebookStmts.any (fun s => s.storesTouched.contains Store.parquetHive)) = false := by
  decide

/-- C5 (amended): the notebooks' example invocations move data between the
external object store, the distributed file system, NoSQL tables and CSV
files, but no operation in the source files touches a Parquet/Hive table. -/
theorem claimC5_amended :
    (allNotebookStmts.any (fun s => s.storesTouched.contains Store.objectStore)) = true
    ∧ (allNotebookStmts.any (fun s => s.storesTouched.contains Store.dfs)) = true
    ∧ (allNotebookStmts.any (fun s => s.storesTouched.contains Store.noSqlTable)) = true
    ∧ (allNotebookStmts.any (fun s => s.storesTouched.contains Store.csvFile)) = true
    ∧ (allNotebookStmts.any (fun s => s.storesTouched.contains Store.parquetHive)) = false := by
  decide

/-- C6 counterexample: the Frames client's NoSQL write is a non-Spark data
access whose address, `examples/stocks/stocks_example_tab`, is a
container-relative path — not a local file-system path under the `/User`
mount — so not every non-Spark access uses the `/User` mount path. -/
theorem claimC6_counterexample :
    framesAccess ∈ allAccesses
    ∧ accessMatchesClaimC6 framesAccess = false
    ∧ (allAccesses.all accessMatchesClaimC6) = false := by decide

/-- C6 (amended): every Spark DataFrame read or write addresses the data
store via a URL built from the `V3IO_HOME_URL` environment variable, every
pandas and shell access uses the local file-system mount path under `/User`,
and the one Frames access addresses its table by a container-relative path
(neither a URL nor a mount path). -/
theorem claimC6_amended :
    (allAccesses.all (fun a =>
      match a.iface with
      | .spark => a.addr.usesHomeUrlEnv
      | .frames => !(a.addr.usesHomeUrlEnv) && !(a.addr.isMountPath)
      | _ => a.addr.isMountPath)) = true := by decide

/-- C7: the NoSQL-to-CSV step loads exactly the table path the CSV-to-NoSQL
step saved (`stocks_tab_spark` under the sample-directory URL), and under the
modelled Spark semantics the rows written to the output CSV are precisely the
stored table rows whose `TradedVolume` exceeds 20000, passed through whole
(all columns preserved). -/
theorem claimC7 (tableRows : List Row) :
    Stmt.kvLoadSrc nosqlReadStmt = Stmt.kvSaveTarget csvToNoSqlWriteStmt
    ∧ nosqlToCsvOutputRows tableRows
      = tableRows.filter (fun r => decide ((20000 : Int) < r.tradedVolume)) :=
  ⟨rfl, rfl⟩

/-- C8: both NoSQL writes of the notebook designate `ISIN` as the table's
primary key (the table registry of the completed run records key column
`ISIN` for the Spark-written table and for the Frames-written table, whose
key is the pandas index set by `set_index('ISIN')`), and under the modelled
KV semantics a table produced by a keyed write holds at most one row per key
value. -/
theorem claimC8 (rows : List Row) (k : String) :
    fileAccessPost.tables.map KVTableMeta.keyCol = ["ISIN", "ISIN"]
    ∧ countKey (kvWriteKeyed rows) k ≤ 1 := by
  refine ⟨by decide, ?_⟩
  exact countKey_foldl_le rows [] (fun k2 => by simp [countKey]) k

/-- C9: the `mkdir -p` cell precedes the `curl` cell; from any starting
state, running the cells through the `mkdir -p` succeeds (the
directory-creation step never fails, also when the directory already
exists), and in the resulting state the download target directory exists,
so the `curl` step succeeds. -/
theorem claimC9 (st : NbState) :
    fileAccessCells[3]? = some [.shellMkdirP (.lit "/User/examples/stocks")]
    ∧ fileAccessCells[4]? = some [theCurlStmt]
    ∧ ∃ st2, runStmts st initStmts = some st2
        ∧ stocksDirSegs ∈ st2.dirs
        ∧ ∃ st3, step st2 theCurlStmt = some st3 := by
  refine ⟨rfl, rfl, ?_⟩
  refine ⟨afterInitState st, rfl, ?_, ?_⟩
  · exact List.mem_append_left _ (by decide)
  · have hmem : (PathExpr.lit "/User/examples/stocks/stocks_example.csv").canonSegs.dropLast
        ∈ ancestorDirs ((PathExpr.lit "/User/examples/stocks").canonSegs) ++ st.dirs :=
      List.mem_append_left _ (by decide)
    exact ⟨_, @if_pos _ _ hmem _ _ none⟩

/-- C10: running every cell of `file-access.ipynb` in order executes no
data-deleting command (the delete-data cell is shipped commented out); the
run completes, and afterwards the ingested CSV file, both NoSQL tables and
the output CSV directory all still exist, the Spark session is stopped, and
the cleanup section's only executed effect on the state is stopping the
Spark session. -/
theorem claimC10 :
    (fileAccessCells.flatten.all (fun s => !(s.isDeleteCmd))) = true
    ∧ fileAccessCells[12]? = some [.comment "!rm -rf /User/examples/stocks/"]
    ∧ fileAccessFinal.isSome = true
    ∧ ["users", "$V3IO_USERNAME", "examples", "stocks", "stocks_example.csv"]
        ∈ fileAccessPost.files
    ∧ ["users", "examples", "stocks", "stocks_example_tab"]
        ∈ fileAccessPost.tables.map KVTableMeta.path
    ∧ ["users", "$V3IO_USERNAME", "examples", "stocks", "stocks_tab_spark"]
        ∈ fileAccessPost.tables.map KVTableMeta.path
    ∧ ["users", "$V3IO_USERNAME", "examples", "stocks", "stocks_high_volume.csv"]
        ∈ fileAccessPost.dirs
    ∧ fileAccessPost.sparkActive = false
    ∧ fileAccessPost = { preCleanupState with sparkActive := false } := by decide

example : slashSegs "/User/examples/stocks/" = ["User", "examples", "stocks"] := by decide

example : sampleDirUrlPathE.eval "v3io://users/alice" = "v3io://users/alice/examples/stocks" := by
  decide

example : (PathExpr.joinE sampleDirUrlPathE (.lit "stocks_tab_spark")).canonSegs
    = ["users", "$V3IO_USERNAME", "examples", "stocks", "stocks_tab_spark"] := by decide

end MlrunTutorials
